import Mathlib

/-!
Verification of `locallibs/install.py` from the relocatable-python repository.

The module is modelled by a shallow embedding: `os.path` string operations are
translated to executable Lean functions on `String` (POSIX semantics, as in
CPython's `posixpath`), the process environment is an association list, and each
function of the module is a Lean function from an ambient context (which fixes
what `os.path.exists` returns, each subprocess's exit status, the working
directory and the home directory) to the list of observable events it performs
(prints, subprocess launches), the final `os.environ`, and whether
`subprocess.check_call` raised.
-/

namespace RelPy

/-- Python `str.startswith(p)`: `p.data` is a prefix of `s.data`. -/
def strStartsWith (s p : String) : Bool :=
  p.data.isPrefixOf s.data

/-- Python `str.endswith(p)`: `p.data` is a suffix of `s.data`. -/
def strEndsWith (s p : String) : Bool :=
  p.data.isSuffixOf s.data

/-- `posixpath.isabs`: the path begins with a slash. -/
def posixIsAbs (s : String) : Bool :=
  strStartsWith s "/"

/-- One step of `posixpath.join`: join an accumulated path with one component. -/
def joinTwo (path b : String) : String :=
  if strStartsWith b "/" then b
  else if path = "" ∨ strEndsWith path "/" then path ++ b
  else path ++ "/" ++ b

/-- `posixpath.join(a, *ps)`. -/
def osPathJoin (a : String) (ps : List String) : String :=
  ps.foldl joinTwo a

/-- Python `str.split(sep)` for a single-character separator, on character
lists; keeps empty fields, so it matches the splitting done by
`posixpath.normpath`. -/
def splitChar (c : Char) : List Char → List (List Char)
  | [] => [[]]
  | a :: rest =>
      let r := splitChar c rest
      if a = c then [] :: r
      else
        match r with
        | [] => [[a]]
        | h :: t => (a :: h) :: t

/-- One component step of `posixpath.normpath`: drop empty and `.` components,
resolve `..` against the accumulator (which stores components in reverse). -/
def normpathStep (initialSlashes : Nat) (acc : List (List Char)) (comp : List Char) :
    List (List Char) :=
  if comp = [] ∨ comp = [ '.' ] then acc
  else if comp ≠ [ '.', '.' ] ∨ (initialSlashes = 0 ∧ acc = []) ∨ acc.head? = some [ '.', '.' ] then
    comp :: acc
  else acc.tail

/-- `posixpath.normpath`. -/
def normpath (path : String) : String :=
  if path = "" then "."
  else
    let initialSlashes : Nat :=
      if strStartsWith path "/" then
        if strStartsWith path "//" ∧ ¬ strStartsWith path "///" then 2 else 1
      else 0
    let comps : List (List Char) := splitChar '/' path.data
    let newComps : List (List Char) := (comps.foldl (normpathStep initialSlashes) []).reverse
    let joined : List Char := (newComps.intersperse [ '/' ]).flatten
    let result : String := String.mk (List.replicate initialSlashes '/' ++ joined)
    if result = "" then "." else result

/-- `posixpath.abspath` relative to a given working directory. -/
def osPathAbspath (cwd path : String) : String :=
  normpath (if posixIsAbs path then path else joinTwo cwd path)

/-- The process environment (`os.environ`), as an association list. -/
abbrev Env := List (String × String)

/-- Setting a key in the environment (Python dict assignment): replace the
first binding of the key, or append a new binding. -/
def envSet : Env → String → String → Env
  | [], k, v => [(k, v)]
  | (k', v') :: rest, k, v =>
      if k' = k then (k, v) :: rest else (k', v') :: envSet rest k v

/-- Looking a key up in the environment. -/
def envGet (e : Env) (k : String) : Option String :=
  (e.find? (fun p => p.1 == k)).map (fun p => p.2)

/-- An observable action of the module: a line printed to stdout, a line
printed to stderr, or a subprocess launched with an argument vector and an
optional environment override. -/
inductive Event where
  | printOut (s : String)
  | printErr (s : String)
  | subprocess (cmd : List String) (env : Option Env)
  deriving DecidableEq

/-- The ambient context the module runs in: which paths exist on disk
(`os.path.exists`), the exit status each launched command returns, the current
working directory (used by `os.path.abspath`) and the home directory (used by
`os.path.expanduser`). -/
structure Ctx where
  pathExists : String → Bool
  exit : List String → Option Env → Nat
  cwd : String
  home : String

/-- The outcome of running one of the module's functions: the events it
performed in order, the final `os.environ`, and whether it raised
(`subprocess.CalledProcessError` propagating out). -/
structure OpResult where
  events : List Event
  environ : Env
  raised : Bool
  deriving DecidableEq

/-- Sequencing: run a second computation only when the first did not raise,
threading `os.environ` through and accumulating events. -/
def andThen (r : OpResult) (k : Env → OpResult) : OpResult :=
  if r.raised then r
  else
    let r2 := k r.environ
    { events := r.events ++ r2.events, environ := r2.environ, raised := r2.raised }

/-- The subprocess launches among a list of events, in order. -/
def subprocessCalls (evs : List Event) : List (List String × Option Env) :=
  evs.filterMap (fun e =>
    match e with
    | Event.subprocess cmd env => some (cmd, env)
    | _ => none)

/-- `ensure_pip` from `locallibs/install.py`. -/
def ensure_pip (c : Ctx) (env : Env) (framework_path version : String) : OpResult :=
  let python_path := osPathJoin framework_path ["Versions", version, "bin/python" ++ version]
  if ¬ c.pathExists python_path then
    { events := [Event.printErr ("No python at " ++ python_path)], environ := env, raised := false }
  else
    let cmd := [python_path, "-s", "-m", "ensurepip"]
    { events := [Event.printOut "Ensuring pip is installed...", Event.subprocess cmd none],
      environ := env,
      raised := c.exit cmd none != 0 }

/-- `install` from `locallibs/install.py`. -/
def install (c : Ctx) (env : Env) (pkgname framework_path version : String) : OpResult :=
  let python_path := osPathJoin framework_path ["Versions", version, "bin/python" ++ version]
  if ¬ c.pathExists python_path then
    { events := [Event.printErr ("No python at " ++ python_path)], environ := env, raised := false }
  else
    let cmd := [python_path, "-s", "-m", "pip", "install", pkgname]
    { events := [Event.printOut ("Installing " ++ pkgname ++ "..."), Event.subprocess cmd none],
      environ := env,
      raised := c.exit cmd none != 0 }

/-- `upgrade_pip_install` from `locallibs/install.py`. -/
def upgrade_pip_install (c : Ctx) (env : Env) (framework_path version : String) : OpResult :=
  let python_path := osPathJoin framework_path ["Versions", version, "bin/python" ++ version]
  if ¬ c.pathExists python_path then
    { events := [Event.printErr ("No python at " ++ python_path)], environ := env, raised := false }
  else
    let cmd := [python_path, "-s", "-m", "pip", "install", "--upgrade", "pip"]
    { events := [Event.printOut "Upgrading pip installation...", Event.subprocess cmd none],
      environ := env,
      raised := c.exit cmd none != 0 }

/-- The helper `multi_value_option` nested in `install_requirements`:
Python's `if separator:` is falsy both for `None` and for the empty string. -/
def multi_value_option (option : String) (values : List String) (separator : Option String) :
    List String :=
  match separator with
  | some sep =>
      if sep = "" then (values.map (fun value => [option, value])).flatten
      else (values.map (fun value => [option ++ sep ++ value])).flatten
  | none => (values.map (fun value => [option, value])).flatten

/-- `install_requirements` from `locallibs/install.py`.  A `None` list argument
is modelled by `[]` (both are falsy in the Python conditionals).  Note that the
source aliases `os.environ` into `pip_env` and mutates it, so the returned
`environ` carries the `CPPFLAGS` binding. -/
def install_requirements (c : Ctx) (env : Env)
    (requirements_file framework_path version : String)
    (pip_platform no_binary only_binary : List String) : OpResult :=
  let python_path := osPathJoin framework_path ["Versions", version, "bin/python" ++ version]
  let headers_path := osPathAbspath c.cwd
    (osPathJoin framework_path ["Versions", version, "include/python" ++ version])
  let site_packages_path := osPathJoin framework_path
    ["Versions", version, "lib/python" ++ version ++ "/site-packages"]
  if ¬ c.pathExists python_path then
    { events := [Event.printErr ("No python at " ++ python_path)], environ := env, raised := false }
  else
    let cmd0 := [python_path, "-s", "-m", "pip", "install", "-r", requirements_file]
    let cmd1 :=
      if pip_platform ≠ [] then
        cmd0 ++ multi_value_option "--platform" pip_platform none
          ++ ["--target=" ++ site_packages_path]
      else cmd0
    let cmd2 :=
      if no_binary ≠ [] then cmd1 ++ multi_value_option "--no-binary" no_binary (some "=")
      else if only_binary ≠ [] then
        cmd1 ++ multi_value_option "--only-binary" only_binary (some "=")
      else cmd1
    let pip_env := envSet env "CPPFLAGS" ("-I" ++ headers_path)
    { events := [Event.printOut ("Installing modules from " ++ requirements_file ++ "..."),
                 Event.subprocess cmd2 (some pip_env)],
      environ := pip_env,
      raised := c.exit cmd2 (some pip_env) != 0 }

/-- The banner printed by `install_extras` when user-level site-packages exist. -/
def guardWarning (python_guard_path : String) : List Event :=
  [Event.printOut "*********************************************************",
   Event.printOut "*** Python user files exist that conflict with the    ***",
   Event.printOut "*** version of relocatable python you are trying to   ***",
   Event.printOut "*** create. This can result in extra python modules   ***",
   Event.printOut "*** not being installed properly or out of date.      ***",
   Event.printOut "*** Please remove these files or create this package  ***",
   Event.printOut "*** under a fresh user account.                       ***",
   Event.printOut "*** The files are located at:                         ***",
   Event.printOut ("*** " ++ python_guard_path ++ " ***"),
   Event.printOut "*********************************************************",
   Event.printOut ""]

/-- `install_extras` from `locallibs/install.py`.  `requirements_file` is
`Option String` (Python `None` default); `if requirements_file:` is falsy for
`None` and for the empty string. -/
def install_extras (c : Ctx) (env : Env) (framework_path version : String)
    (requirements_file : Option String) (upgrade_pip without_pip : Bool)
    (pip_platform no_binary only_binary : List String) : OpResult :=
  let python_guard_path :=
    c.home ++ "/Library/Python/" ++ version ++ "/lib/python/site-packages"
  let pre : List Event :=
    Event.printOut "" ::
      (if c.pathExists python_guard_path then guardWarning python_guard_path else [])
  if ¬ without_pip then
    let r :=
      andThen (ensure_pip c env framework_path version) (fun e1 =>
        andThen (install c e1 "wheel" framework_path version) (fun e2 =>
          andThen
            (if upgrade_pip then upgrade_pip_install c e2 framework_path version
             else { events := [], environ := e2, raised := false })
            (fun e3 =>
              match requirements_file with
              | some f =>
                  if f = "" then { events := [], environ := e3, raised := false }
                  else
                    andThen { events := [Event.printOut ""], environ := e3, raised := false }
                      (fun e4 =>
                        install_requirements c e4 f framework_path version
                          pip_platform no_binary only_binary)
              | none => { events := [], environ := e3, raised := false })))
    { events := pre ++ r.events, environ := r.environ, raised := r.raised }
  else
    { events :=
        pre ++ [Event.printOut "Skipping all requirements, packages, etc due to without-pip specified"],
      environ := env,
      raised := false }

/-! Helper lemmas about the string and environment model, shared by the
claim theorems below. -/

/-- Looking up the key just set returns the value just set. -/
theorem envGet_envSet (e : Env) (k v : String) : envGet (envSet e k v) k = some v := by
  induction e with
  | nil => simp [envSet, envGet, List.find?]
  | cons p rest ih =>
      obtain ⟨k', v'⟩ := p
      by_cases h : k' = k
      · subst h
        simp [envSet, envGet, List.find?]
      · simpa [envSet, envGet, List.find?, h] using ih

/-- A string is empty exactly when its character list is. -/
theorem data_eq_nil_iff (s : String) : s.data = [] ↔ s = "" := by
  constructor
  · intro h
    exact String.ext h
  · intro h
    rw [h]

/-- A prefix agrees with the larger list at every index it covers. -/
theorem getElem?_of_isPrefixOf {p s : List Char} (h : p.isPrefixOf s = true)
    {i : Nat} {c : Char} (hp : p[i]? = some c) : s[i]? = some c := by
  rcases List.isPrefixOf_iff_prefix.mp h with ⟨t, ht⟩
  subst ht
  rcases List.getElem?_eq_some.mp hp with ⟨hlt, _⟩
  rw [List.getElem?_append_left hlt]
  exact hp

/-- A single-character list is a prefix exactly when it is the head. -/
theorem singleChar_isPrefixOf (c : Char) (l : List Char) :
    [c].isPrefixOf l = true ↔ l.head? = some c := by
  cases l with
  | nil => simp [List.isPrefixOf]
  | cons a t =>
      simp [List.isPrefixOf]
      exact eq_comm

/-- `pre ++ x` cannot start with `p` when `pre` and `p` differ at an index
they both cover. -/
theorem strStartsWith_append_ne (pre x p : String) (i : Nat) (cp cpre : Char)
    (hp : p.data[i]? = some cp) (hpre : pre.data[i]? = some cpre) (hne : cp ≠ cpre) :
    strStartsWith (pre ++ x) p = false := by
  cases hb : strStartsWith (pre ++ x) p with
  | false => rfl
  | true =>
      exfalso
      unfold strStartsWith at hb
      rw [String.data_append] at hb
      have h2 := getElem?_of_isPrefixOf hb hp
      rcases List.getElem?_eq_some.mp hpre with ⟨hlt, _⟩
      rw [List.getElem?_append_left hlt, hpre] at h2
      exact hne (Option.some.inj h2).symm

/-- `a ++ x` and `b ++ y` differ when `a` and `b` differ at an index they
both cover. -/
theorem str_append_ne (a x b y : String) (i : Nat) (ca cb : Char)
    (ha : a.data[i]? = some ca) (hb : b.data[i]? = some cb) (hne : ca ≠ cb) :
    a ++ x ≠ b ++ y := by
  intro h
  have h2 := congrArg String.data h
  rw [String.data_append, String.data_append] at h2
  rcases List.getElem?_eq_some.mp ha with ⟨hia, _⟩
  rcases List.getElem?_eq_some.mp hb with ⟨hib, _⟩
  have h3 : (a.data ++ x.data)[i]? = some ca := by
    rw [List.getElem?_append_left hia]
    exact ha
  rw [h2, List.getElem?_append_left hib, hb] at h3
  exact hne (Option.some.inj h3).symm

/-- Prepending to a nonempty string does not change whether it starts with a
slash. -/
theorem strStartsWith_slash_append (x y : String) (hx : x ≠ "") :
    strStartsWith (x ++ y) "/" = strStartsWith x "/" := by
  have hxd : x.data ≠ [] := fun h => hx ((data_eq_nil_iff x).mp h)
  rw [Bool.eq_iff_iff]
  unfold strStartsWith
  rw [String.data_append]
  have hslash : ("/" : String).data = [ '/' ] := rfl
  rw [hslash, singleChar_isPrefixOf, singleChar_isPrefixOf,
    List.head?_append_of_ne_nil x.data hxd]

/-- Appending a nonempty string decides whether the result ends with a
slash. -/
theorem strEndsWith_slash_append (x v : String) (hv : v ≠ "") :
    strEndsWith (x ++ v) "/" = strEndsWith v "/" := by
  have hvd : v.data.reverse ≠ [] := by
    intro h
    exact hv ((data_eq_nil_iff v).mp (List.reverse_eq_nil_iff.mp h))
  rw [Bool.eq_iff_iff]
  unfold strEndsWith List.isSuffixOf
  rw [String.data_append, List.reverse_append]
  have hslash : ("/" : String).data.reverse = [ '/' ] := rfl
  rw [hslash, singleChar_isPrefixOf, singleChar_isPrefixOf,
    List.head?_append_of_ne_nil v.data.reverse hvd]

/-- A string with nonempty character data is nonempty. -/
theorem str_ne_empty (s : String) (h : s.data ≠ []) : s ≠ "" :=
  fun he => h ((data_eq_nil_iff s).mpr he)

/-- Flattening a list of singletons is mapping. -/
theorem flatten_singletons {α β : Type} (f : α → β) (l : List α) :
    (l.map (fun a => [f a])).flatten = l.map f := by
  induction l with
  | nil => rfl
  | cons a t ih => simp [ih]

/-- The number of elements of an argument vector that begin with a given
option text. -/
def flagCount (cmd : List String) (optText : String) : Nat :=
  (cmd.filter (fun s => strStartsWith s optText)).length

/-- A `--no-binary=` combined flag never reads as an `--only-binary=` flag. -/
theorem noBinaryFlag_not_onlyBinary (n : String) :
    strStartsWith ("--no-binary=" ++ n) "--only-binary=" = false :=
  strStartsWith_append_ne "--no-binary=" n "--only-binary=" 2 'o' 'n' rfl rfl (by decide)

/-- A `--target=` combined flag never reads as an `--only-binary=` flag. -/
theorem targetFlag_not_onlyBinary (s : String) :
    strStartsWith ("--target=" ++ s) "--only-binary=" = false :=
  strStartsWith_append_ne "--target=" s "--only-binary=" 2 'o' 't' rfl rfl (by decide)

/-- A `--no-binary=` combined flag never reads as a `--target=` flag. -/
theorem noBinaryFlag_not_target (n : String) :
    strStartsWith ("--no-binary=" ++ n) "--target=" = false :=
  strStartsWith_append_ne "--no-binary=" n "--target=" 2 't' 'n' rfl rfl (by decide)

/-- An `--only-binary=` combined flag never reads as a `--target=` flag. -/
theorem onlyBinaryFlag_not_target (n : String) :
    strStartsWith ("--only-binary=" ++ n) "--target=" = false :=
  strStartsWith_append_ne "--only-binary=" n "--target=" 2 't' 'o' rfl rfl (by decide)

/-- A `--no-binary=` combined flag is never the bare `--platform` option. -/
theorem noBinaryFlag_ne_platform (n : String) : "--no-binary=" ++ n ≠ "--platform" := by
  have h := str_append_ne "--no-binary=" n "--platform" "" 2 'n' 'p' rfl rfl (by decide)
  simpa using h

/-- An `--only-binary=` combined flag is never the bare `--platform` option. -/
theorem onlyBinaryFlag_ne_platform (n : String) : "--only-binary=" ++ n ≠ "--platform" := by
  have h := str_append_ne "--only-binary=" n "--platform" "" 2 'o' 'p' rfl rfl (by decide)
  simpa using h

/-- A string starts with any string it extends. -/
theorem strStartsWith_append_self (a x : String) : strStartsWith (a ++ x) a = true := by
  unfold strStartsWith
  rw [String.data_append]
  exact List.isPrefixOf_iff_prefix.mpr (List.prefix_append a.data x.data)

/-- A concrete context with an existing interpreter at `/R/Versions/3.9/...`,
all subprocesses exiting 0, used by the witnesses. -/
def ctxOk : Ctx :=
  { pathExists := fun s => s == "/R/Versions/3.9/bin/python3.9",
    exit := fun _ _ => 0,
    cwd := "/cwd",
    home := "/h" }

/-- A concrete context like `ctxOk` but whose subprocesses all exit 1, used by
the witnesses. -/
def ctxFail : Ctx :=
  { pathExists := fun s => s == "/R/Versions/3.9/bin/python3.9",
    exit := fun _ _ => 1,
    cwd := "/cwd",
    home := "/h" }

/-- C7: for the manifest-install operation, when the platform, no-binary and
only-binary lists are all empty and the executable exists, the launched
argument vector is exactly `[<python>, -s, -m, pip, install, -r, <manifest>]`
with no additional flags. -/
theorem C7_manifest_base_vector (c : Ctx) (env : Env) (rf fp v : String)
    (hex : c.pathExists (osPathJoin fp ["Versions", v, "bin/python" ++ v]) = true) :
    ∃ penv : Env,
      (install_requirements c env rf fp v [] [] []).events
        = [Event.printOut ("Installing modules from " ++ rf ++ "..."),
           Event.subprocess
             [osPathJoin fp ["Versions", v, "bin/python" ++ v],
              "-s", "-m", "pip", "install", "-r", rf]
             (some penv)] := by
  refine ⟨envSet env "CPPFLAGS"
    ("-I" ++ osPathAbspath c.cwd (osPathJoin fp ["Versions", v, "include/python" ++ v])), ?_⟩
  simp [install_requirements, hex]

/-- Witness for C7 at a concrete input. -/
theorem C7_manifest_base_vector_witness :
    ∃ penv : Env,
      (install_requirements ctxOk [] "req.txt" "/R" "3.9" [] [] []).events
        = [Event.printOut ("Installing modules from " ++ "req.txt" ++ "..."),
           Event.subprocess
             [osPathJoin "/R" ["Versions", "3.9", "bin/python" ++ "3.9"],
              "-s", "-m", "pip", "install", "-r", "req.txt"]
             (some penv)] :=
  C7_manifest_base_vector ctxOk [] "req.txt" "/R" "3.9" (by decide)

/-- C8: the bootstrap operation launches `[<python>, -s, -m, ensurepip]`, the
named-package install operation launches `[<python>, -s, -m, pip, install,
<pkgname>]`, and the upgrade operation launches `[<python>, -s, -m, pip,
install, --upgrade, pip]`. -/
theorem C8_wire_contract (c : Ctx) (env : Env) (fp v pkg : String)
    (hex : c.pathExists (osPathJoin fp ["Versions", v, "bin/python" ++ v]) = true) :
    subprocessCalls (ensure_pip c env fp v).events
        = [([osPathJoin fp ["Versions", v, "bin/python" ++ v], "-s", "-m", "ensurepip"], none)]
    ∧ subprocessCalls (install c env pkg fp v).events
        = [([osPathJoin fp ["Versions", v, "bin/python" ++ v],
             "-s", "-m", "pip", "install", pkg], none)]
    ∧ subprocessCalls (upgrade_pip_install c env fp v).events
        = [([osPathJoin fp ["Versions", v, "bin/python" ++ v],
             "-s", "-m", "pip", "install", "--upgrade", "pip"], none)] := by
  refine ⟨?_, ?_, ?_⟩ <;>
    simp [ensure_pip, install, upgrade_pip_install, subprocessCalls, hex]

/-- Witness for C8 at a concrete input. -/
theorem C8_wire_contract_witness :
    subprocessCalls (ensure_pip ctxOk [] "/R" "3.9").events
        = [([osPathJoin "/R" ["Versions", "3.9", "bin/python" ++ "3.9"],
             "-s", "-m", "ensurepip"], none)]
    ∧ subprocessCalls (install ctxOk [] "wheel" "/R" "3.9").events
        = [([osPathJoin "/R" ["Versions", "3.9", "bin/python" ++ "3.9"],
             "-s", "-m", "pip", "install", "wheel"], none)]
    ∧ subprocessCalls (upgrade_pip_install ctxOk [] "/R" "3.9").events
        = [([osPathJoin "/R" ["Versions", "3.9", "bin/python" ++ "3.9"],
             "-s", "-m", "pip", "install", "--upgrade", "pip"], none)] :=
  C8_wire_contract ctxOk [] "/R" "3.9" "wheel" (by decide)

/-- C5: every launched manifest-install subprocess receives an environment
mapping `CPPFLAGS` to `-I` followed by the absolute header path derived from
the same (root, version) pair that the executable path is derived from. -/
theorem C5_cppflags_env (c : Ctx) (env : Env) (rf fp v : String)
    (plats nb ob : List String)
    (hex : c.pathExists (osPathJoin fp ["Versions", v, "bin/python" ++ v]) = true) :
    (subprocessCalls (install_requirements c env rf fp v plats nb ob).events).map Prod.snd
        = [some (envSet env "CPPFLAGS"
            ("-I" ++ osPathAbspath c.cwd
              (osPathJoin fp ["Versions", v, "include/python" ++ v])))]
    ∧ (subprocessCalls (install_requirements c env rf fp v plats nb ob).events).map
          (fun pr => pr.1.head?)
        = [some (osPathJoin fp ["Versions", v, "bin/python" ++ v])]
    ∧ envGet
          (envSet env "CPPFLAGS"
            ("-I" ++ osPathAbspath c.cwd
              (osPathJoin fp ["Versions", v, "include/python" ++ v])))
          "CPPFLAGS"
        = some ("-I" ++ osPathAbspath c.cwd
            (osPathJoin fp ["Versions", v, "include/python" ++ v])) := by
  refine ⟨?_, ?_, envGet_envSet env _ _⟩ <;>
    (by_cases hp : plats = [] <;> by_cases hn : nb = [] <;> by_cases ho : ob = [] <;>
      simp [install_requirements, subprocessCalls, hex, hp, hn, ho])

/-- Witness for C5 at a concrete input. -/
theorem C5_cppflags_env_witness :
    (subprocessCalls
        (install_requirements ctxOk [] "req.txt" "/R" "3.9" ["macosx_11_0_arm64"] [] ["c"]).events).map
          Prod.snd
        = [some (envSet [] "CPPFLAGS"
            ("-I" ++ osPathAbspath ctxOk.cwd
              (osPathJoin "/R" ["Versions", "3.9", "include/python" ++ "3.9"])))]
    ∧ (subprocessCalls
        (install_requirements ctxOk [] "req.txt" "/R" "3.9" ["macosx_11_0_arm64"] [] ["c"]).events).map
          (fun pr => pr.1.head?)
        = [some (osPathJoin "/R" ["Versions", "3.9", "bin/python" ++ "3.9"])]
    ∧ envGet
          (envSet [] "CPPFLAGS"
            ("-I" ++ osPathAbspath ctxOk.cwd
              (osPathJoin "/R" ["Versions", "3.9", "include/python" ++ "3.9"])))
          "CPPFLAGS"
        = some ("-I" ++ osPathAbspath ctxOk.cwd
            (osPathJoin "/R" ["Versions", "3.9", "include/python" ++ "3.9"])) :=
  C5_cppflags_env ctxOk [] "req.txt" "/R" "3.9" ["macosx_11_0_arm64"] [] ["c"] (by decide)

/-- C1: in the manifest-install operation, when a no-binary list is supplied
the launched vector carries one `--no-binary=<name>` flag per entry and no
`--only-binary=` flag at all (the only-binary list is silently ignored); when
only an only-binary list is supplied the vector carries one
`--only-binary=<name>` flag per entry. -/
theorem C1_binary_exclusivity (c : Ctx) (env : Env) (rf fp v : String)
    (plats nb ob : List String)
    (hex : c.pathExists (osPathJoin fp ["Versions", v, "bin/python" ++ v]) = true)
    (hrf : strStartsWith rf "--only-binary=" = false)
    (hpp : strStartsWith (osPathJoin fp ["Versions", v, "bin/python" ++ v])
      "--only-binary=" = false)
    (hpl : ∀ p ∈ plats, strStartsWith p "--only-binary=" = false) :
    (nb ≠ [] →
      (subprocessCalls (install_requirements c env rf fp v plats nb ob).events).map Prod.fst
        = [[osPathJoin fp ["Versions", v, "bin/python" ++ v],
            "-s", "-m", "pip", "install", "-r", rf]
            ++ (if plats ≠ [] then
                  (plats.map (fun value => ["--platform", value])).flatten
                    ++ ["--target="
                        ++ osPathJoin fp ["Versions", v, "lib/python" ++ v ++ "/site-packages"]]
                else [])
            ++ nb.map (fun value => "--no-binary=" ++ value)]
      ∧ ∀ e ∈ [osPathJoin fp ["Versions", v, "bin/python" ++ v],
            "-s", "-m", "pip", "install", "-r", rf]
            ++ (if plats ≠ [] then
                  (plats.map (fun value => ["--platform", value])).flatten
                    ++ ["--target="
                        ++ osPathJoin fp ["Versions", v, "lib/python" ++ v ++ "/site-packages"]]
                else [])
            ++ nb.map (fun value => "--no-binary=" ++ value),
          strStartsWith e "--only-binary=" = false)
    ∧ (nb = [] → ob ≠ [] →
      (subprocessCalls (install_requirements c env rf fp v plats nb ob).events).map Prod.fst
        = [[osPathJoin fp ["Versions", v, "bin/python" ++ v],
            "-s", "-m", "pip", "install", "-r", rf]
            ++ (if plats ≠ [] then
                  (plats.map (fun value => ["--platform", value])).flatten
                    ++ ["--target="
                        ++ osPathJoin fp ["Versions", v, "lib/python" ++ v ++ "/site-packages"]]
                else [])
            ++ ob.map (fun value => "--only-binary=" ++ value)]) := by
  constructor
  · intro hnb
    constructor
    · by_cases hp : plats = [] <;>
        simp [install_requirements, subprocessCalls, multi_value_option, flatten_singletons,
          hex, hp, hnb]
    · intro e he
      rcases List.mem_append.mp he with h12 | h3
      · rcases List.mem_append.mp h12 with h1 | h2
        · simp at h1
          rcases h1 with rfl | rfl | rfl | rfl | rfl | rfl | rfl
          · exact hpp
          · decide
          · decide
          · decide
          · decide
          · decide
          · exact hrf
        · revert h2
          by_cases hp : plats = []
          · simp [hp]
          · simp only [hp, if_pos, ne_eq, not_false_eq_true, if_true]
            intro h2
            rcases List.mem_append.mp h2 with hfl | htg
            · rcases List.mem_flatten.mp hfl with ⟨l, hl, hel⟩
              rcases List.mem_map.mp hl with ⟨p, hpmem, rfl⟩
              simp at hel
              rcases hel with rfl | rfl
              · decide
              · exact hpl _ hpmem
            · simp at htg
              subst htg
              exact targetFlag_not_onlyBinary _
      · rcases List.mem_map.mp h3 with ⟨x, _, rfl⟩
        exact noBinaryFlag_not_onlyBinary x
  · intro hnb hob
    by_cases hp : plats = [] <;>
      simp [install_requirements, subprocessCalls, multi_value_option, flatten_singletons,
        hex, hp, hnb, hob]

/-- Witness for C1 at a concrete input: no-binary `[a, b]` and only-binary
`[c]` both supplied. -/
theorem C1_binary_exclusivity_witness :
    (subprocessCalls
        (install_requirements ctxOk [] "req.txt" "/R" "3.9" [] ["a", "b"] ["c"]).events).map
          Prod.fst
      = [["/R/Versions/3.9/bin/python3.9", "-s", "-m", "pip", "install", "-r", "req.txt",
          "--no-binary=a", "--no-binary=b"]]
    ∧ strStartsWith "--no-binary=a" "--only-binary=" = false := by
  have h := (C1_binary_exclusivity ctxOk [] "req.txt" "/R" "3.9" [] ["a", "b"] ["c"]
    (by decide) (by decide) (by decide) (by decide)).1 (by decide)
  constructor
  · have h1 := h.1
    simpa using h1
  · exact h.2 "--no-binary=a" (by decide)

/-- Filtering keeps nothing when the test fails on every element. -/
theorem all_false_filter {q : String → Bool} {l : List String}
    (h : ∀ x ∈ l, q x = false) : l.filter q = [] := by
  induction l with
  | nil => rfl
  | cons a t ih =>
      simp [List.filter, h a (List.mem_cons_self a t),
        ih (fun x hx => h x (List.mem_cons_of_mem a hx))]

/-- The platform option/value pairs contain no `--target=` flag when no
platform value reads as one. -/
theorem platform_pairs_no_target (plats : List String)
    (hplt : ∀ p ∈ plats, strStartsWith p "--target=" = false) :
    ((plats.map (fun value => ["--platform", value])).flatten.filter
      (fun s => strStartsWith s "--target=")) = [] := by
  refine all_false_filter ?_
  intro x hx
  rcases List.mem_flatten.mp hx with ⟨l, hl, hel⟩
  rcases List.mem_map.mp hl with ⟨p, hpmem, rfl⟩
  simp at hel
  rcases hel with rfl | rfl
  · decide
  · exact hplt _ hpmem

/-- The combined binary flags contain no `--target=` flag. -/
theorem binary_flags_no_target (nb ob : List String) :
    ((if nb ≠ [] then nb.map (fun value => "--no-binary=" ++ value)
      else if ob ≠ [] then ob.map (fun value => "--only-binary=" ++ value)
      else []).filter (fun s => strStartsWith s "--target=")) = [] := by
  refine all_false_filter ?_
  intro x hx
  by_cases hn : nb = []
  · by_cases ho : ob = []
    · simp [hn, ho] at hx
    · simp [hn, ho] at hx
      rcases hx with ⟨y, _, rfl⟩
      exact onlyBinaryFlag_not_target y
  · simp [hn] at hx
    rcases hx with ⟨y, _, rfl⟩
    exact noBinaryFlag_not_target y

/-- C2: in the manifest-install operation, a nonempty platform list
contributes, in input order, a `--platform <value>` pair per entry followed by
exactly one combined `--target=<install-dir>` flag (the install directory
derived from the same root and version); an empty platform list contributes no
`--platform` argument and no `--target=` flag. -/
theorem C2_platform_target (c : Ctx) (env : Env) (rf fp v : String)
    (plats nb ob : List String)
    (hex : c.pathExists (osPathJoin fp ["Versions", v, "bin/python" ++ v]) = true)
    (hrft : strStartsWith rf "--target=" = false)
    (hppt : strStartsWith (osPathJoin fp ["Versions", v, "bin/python" ++ v])
      "--target=" = false)
    (hplt : ∀ p ∈ plats, strStartsWith p "--target=" = false)
    (hrfp : rf ≠ "--platform")
    (hppp : osPathJoin fp ["Versions", v, "bin/python" ++ v] ≠ "--platform") :
    (plats ≠ [] →
      (subprocessCalls (install_requirements c env rf fp v plats nb ob).events).map Prod.fst
        = [[osPathJoin fp ["Versions", v, "bin/python" ++ v],
            "-s", "-m", "pip", "install", "-r", rf]
            ++ (plats.map (fun value => ["--platform", value])).flatten
            ++ ["--target="
                ++ osPathJoin fp ["Versions", v, "lib/python" ++ v ++ "/site-packages"]]
            ++ (if nb ≠ [] then nb.map (fun value => "--no-binary=" ++ value)
                else if ob ≠ [] then ob.map (fun value => "--only-binary=" ++ value)
                else [])]
      ∧ flagCount
          ([osPathJoin fp ["Versions", v, "bin/python" ++ v],
            "-s", "-m", "pip", "install", "-r", rf]
            ++ (plats.map (fun value => ["--platform", value])).flatten
            ++ ["--target="
                ++ osPathJoin fp ["Versions", v, "lib/python" ++ v ++ "/site-packages"]]
            ++ (if nb ≠ [] then nb.map (fun value => "--no-binary=" ++ value)
                else if ob ≠ [] then ob.map (fun value => "--only-binary=" ++ value)
                else []))
          "--target=" = 1)
    ∧ (plats = [] →
      (subprocessCalls (install_requirements c env rf fp v plats nb ob).events).map Prod.fst
        = [[osPathJoin fp ["Versions", v, "bin/python" ++ v],
            "-s", "-m", "pip", "install", "-r", rf]
            ++ (if nb ≠ [] then nb.map (fun value => "--no-binary=" ++ value)
                else if ob ≠ [] then ob.map (fun value => "--only-binary=" ++ value)
                else [])]
      ∧ flagCount
          ([osPathJoin fp ["Versions", v, "bin/python" ++ v],
            "-s", "-m", "pip", "install", "-r", rf]
            ++ (if nb ≠ [] then nb.map (fun value => "--no-binary=" ++ value)
                else if ob ≠ [] then ob.map (fun value => "--only-binary=" ++ value)
                else []))
          "--target=" = 0
      ∧ ∀ e ∈ [osPathJoin fp ["Versions", v, "bin/python" ++ v],
            "-s", "-m", "pip", "install", "-r", rf]
            ++ (if nb ≠ [] then nb.map (fun value => "--no-binary=" ++ value)
                else if ob ≠ [] then ob.map (fun value => "--only-binary=" ++ value)
                else []),
          e ≠ "--platform") := by
  have hbase : ([osPathJoin fp ["Versions", v, "bin/python" ++ v],
      "-s", "-m", "pip", "install", "-r", rf].filter
        (fun s => strStartsWith s "--target=")) = [] := by
    refine all_false_filter ?_
    intro x hx
    simp at hx
    rcases hx with rfl | rfl | rfl | rfl | rfl | rfl | rfl
    · exact hppt
    · decide
    · decide
    · decide
    · decide
    · decide
    · exact hrft
  constructor
  · intro hp
    constructor
    · by_cases hn : nb = [] <;> by_cases ho : ob = [] <;>
        simp [install_requirements, subprocessCalls, multi_value_option, flatten_singletons,
          hex, hp, hn, ho]
    · unfold flagCount
      rw [List.filter_append, List.filter_append, List.filter_append]
      rw [hbase, platform_pairs_no_target plats hplt, binary_flags_no_target nb ob]
      simp [List.filter, strStartsWith_append_self]
  · intro hp
    refine ⟨?_, ?_, ?_⟩
    · by_cases hn : nb = [] <;> by_cases ho : ob = [] <;>
        simp [install_requirements, subprocessCalls, multi_value_option, flatten_singletons,
          hex, hp, hn, ho]
    · unfold flagCount
      rw [List.filter_append, hbase, binary_flags_no_target nb ob]
      rfl
    · intro e he
      rcases List.mem_append.mp he with h1 | h2
      · simp at h1
        rcases h1 with rfl | rfl | rfl | rfl | rfl | rfl | rfl
        · exact hppp
        · decide
        · decide
        · decide
        · decide
        · decide
        · exact hrfp
      · by_cases hn : nb = []
        · by_cases ho : ob = []
          · simp [hn, ho] at h2
          · simp [hn, ho] at h2
            rcases h2 with ⟨y, _, rfl⟩
            exact onlyBinaryFlag_ne_platform y
        · simp [hn] at h2
          rcases h2 with ⟨y, _, rfl⟩
          exact noBinaryFlag_ne_platform y

/-- Witness for C2 at a concrete input: platform list `[p1, p2]`. -/
theorem C2_platform_target_witness :
    (subprocessCalls
        (install_requirements ctxOk [] "req.txt" "/R" "3.9" ["p1", "p2"] [] []).events).map
          Prod.fst
      = [["/R/Versions/3.9/bin/python3.9", "-s", "-m", "pip", "install", "-r", "req.txt",
          "--platform", "p1", "--platform", "p2",
          "--target=/R/Versions/3.9/lib/python3.9/site-packages"]]
    ∧ flagCount
        ["/R/Versions/3.9/bin/python3.9", "-s", "-m", "pip", "install", "-r", "req.txt",
         "--platform", "p1", "--platform", "p2",
         "--target=/R/Versions/3.9/lib/python3.9/site-packages"]
        "--target=" = 1 := by
  have h := (C2_platform_target ctxOk [] "req.txt" "/R" "3.9" ["p1", "p2"] [] []
    (by decide) (by decide) (by decide) (by decide) (by decide) (by decide)).1 (by decide)
  constructor
  · have h1 := h.1
    simpa using h1
  · have h2 := h.2
    simpa using h2

/-- C10: in the manifest-install operation the platform list is not mutually
exclusive with the binary lists: with both a platform list and a no-binary
list supplied, the vector carries the platform pairs and the target flag
followed by the no-binary flags. -/
theorem C10_platform_and_binary (c : Ctx) (env : Env) (rf fp v : String)
    (plats nb ob : List String)
    (hex : c.pathExists (osPathJoin fp ["Versions", v, "bin/python" ++ v]) = true)
    (hp : plats ≠ []) (hnb : nb ≠ []) :
    (subprocessCalls (install_requirements c env rf fp v plats nb ob).events).map Prod.fst
      = [[osPathJoin fp ["Versions", v, "bin/python" ++ v],
          "-s", "-m", "pip", "install", "-r", rf]
          ++ (plats.map (fun value => ["--platform", value])).flatten
          ++ ["--target="
              ++ osPathJoin fp ["Versions", v, "lib/python" ++ v ++ "/site-packages"]]
          ++ nb.map (fun value => "--no-binary=" ++ value)] := by
  simp [install_requirements, subprocessCalls, multi_value_option, flatten_singletons,
    hex, hp, hnb]

/-- Witness for C10 at a concrete input. -/
theorem C10_platform_and_binary_witness :
    (subprocessCalls
        (install_requirements ctxOk [] "req.txt" "/R" "3.9" ["p1"] ["a"] ["c"]).events).map
          Prod.fst
      = [["/R/Versions/3.9/bin/python3.9", "-s", "-m", "pip", "install", "-r", "req.txt",
          "--platform", "p1", "--target=/R/Versions/3.9/lib/python3.9/site-packages",
          "--no-binary=a"]] := by
  have h := C10_platform_and_binary ctxOk [] "req.txt" "/R" "3.9" ["p1"] ["a"] ["c"]
    (by decide) (by decide) (by decide)
  simpa using h

/-- C4: each of the four subprocess-issuing operations raises exactly when the
resolved executable exists and the launched subprocess exits non-zero; when
the executable does not exist the operation prints one diagnostic to the
error stream and returns without launching anything and without raising; when
it exists, exactly one subprocess is launched (no retry). -/
theorem C4_error_contract (c : Ctx) (env : Env) (fp v pkg rf : String)
    (plats nb ob : List String) :
    (c.pathExists (osPathJoin fp ["Versions", v, "bin/python" ++ v]) = false →
      ensure_pip c env fp v
        = { events := [Event.printErr ("No python at "
              ++ osPathJoin fp ["Versions", v, "bin/python" ++ v])],
            environ := env, raised := false }
      ∧ install c env pkg fp v
        = { events := [Event.printErr ("No python at "
              ++ osPathJoin fp ["Versions", v, "bin/python" ++ v])],
            environ := env, raised := false }
      ∧ upgrade_pip_install c env fp v
        = { events := [Event.printErr ("No python at "
              ++ osPathJoin fp ["Versions", v, "bin/python" ++ v])],
            environ := env, raised := false }
      ∧ install_requirements c env rf fp v plats nb ob
        = { events := [Event.printErr ("No python at "
              ++ osPathJoin fp ["Versions", v, "bin/python" ++ v])],
            environ := env, raised := false })
    ∧ (c.pathExists (osPathJoin fp ["Versions", v, "bin/python" ++ v]) = true →
      (subprocessCalls (ensure_pip c env fp v).events
          = [([osPathJoin fp ["Versions", v, "bin/python" ++ v],
               "-s", "-m", "ensurepip"], none)]
        ∧ ((ensure_pip c env fp v).raised = true
            ↔ c.exit [osPathJoin fp ["Versions", v, "bin/python" ++ v],
                "-s", "-m", "ensurepip"] none ≠ 0))
      ∧ (subprocessCalls (install c env pkg fp v).events
          = [([osPathJoin fp ["Versions", v, "bin/python" ++ v],
               "-s", "-m", "pip", "install", pkg], none)]
        ∧ ((install c env pkg fp v).raised = true
            ↔ c.exit [osPathJoin fp ["Versions", v, "bin/python" ++ v],
                "-s", "-m", "pip", "install", pkg] none ≠ 0))
      ∧ (subprocessCalls (upgrade_pip_install c env fp v).events
          = [([osPathJoin fp ["Versions", v, "bin/python" ++ v],
               "-s", "-m", "pip", "install", "--upgrade", "pip"], none)]
        ∧ ((upgrade_pip_install c env fp v).raised = true
            ↔ c.exit [osPathJoin fp ["Versions", v, "bin/python" ++ v],
                "-s", "-m", "pip", "install", "--upgrade", "pip"] none ≠ 0))
      ∧ ((subprocessCalls (install_requirements c env rf fp v plats nb ob).events).length = 1
        ∧ ∀ cmd penv,
            subprocessCalls (install_requirements c env rf fp v plats nb ob).events
              = [(cmd, penv)] →
            ((install_requirements c env rf fp v plats nb ob).raised = true
              ↔ c.exit cmd penv ≠ 0))) := by
  constructor
  · intro hmiss
    refine ⟨?_, ?_, ?_, ?_⟩ <;>
      simp [ensure_pip, install, upgrade_pip_install, install_requirements, hmiss]
  · intro hex
    refine ⟨⟨?_, ?_⟩, ⟨?_, ?_⟩, ⟨?_, ?_⟩, ?_, ?_⟩ <;>
      try simp [ensure_pip, install, upgrade_pip_install, subprocessCalls, hex, bne_iff_ne]
    · by_cases hp : plats = [] <;> by_cases hn : nb = [] <;> by_cases ho : ob = [] <;>
        simp [install_requirements, subprocessCalls, hex, hp, hn, ho]
    · intro cmd penv h
      by_cases hp : plats = [] <;> by_cases hn : nb = [] <;> by_cases ho : ob = [] <;>
        (simp [install_requirements, subprocessCalls, hex, hp, hn, ho] at h ;
         rcases h with ⟨rfl, rfl⟩ ;
         simp [install_requirements, hex, hp, hn, ho, bne_iff_ne])

/-- Witness for C4: with every subprocess exiting 1 the bootstrap operation
raises, and with a missing executable it only prints the diagnostic. -/
theorem C4_error_contract_witness :
    (ensure_pip ctxFail [] "/R" "3.9").raised = true
    ∧ ensure_pip ctxFail [] "/X" "3.9"
        = { events := [Event.printErr "No python at /X/Versions/3.9/bin/python3.9"],
            environ := [], raised := false } :=
  ⟨(((C4_error_contract ctxFail [] "/R" "3.9" "wheel" "req.txt" [] [] []).2
      (by decide)).1.2).mpr (by decide),
   (((C4_error_contract ctxFail [] "/X" "3.9" "wheel" "req.txt" [] [] []).1
      (by decide)).1).trans (by decide)⟩

/-- C6: with `without_pip = False`, no requirements manifest and
`upgrade_pip = False`, the orchestration launches exactly the bootstrap call
followed by the install-"wheel" call; with `without_pip = True` it launches
nothing and prints exactly one skip diagnostic after the initial blank
line. -/
theorem C6_orchestration (c : Ctx) (env : Env) (fp v : String)
    (hguard : c.pathExists
      (c.home ++ "/Library/Python/" ++ v ++ "/lib/python/site-packages") = false) :
    ((c.pathExists (osPathJoin fp ["Versions", v, "bin/python" ++ v]) = true →
      c.exit [osPathJoin fp ["Versions", v, "bin/python" ++ v],
        "-s", "-m", "ensurepip"] none = 0 →
      subprocessCalls (install_extras c env fp v none false false [] [] []).events
        = [([osPathJoin fp ["Versions", v, "bin/python" ++ v],
             "-s", "-m", "ensurepip"], none),
           ([osPathJoin fp ["Versions", v, "bin/python" ++ v],
             "-s", "-m", "pip", "install", "wheel"], none)]))
    ∧ (install_extras c env fp v none false true [] [] []).events
        = [Event.printOut "",
           Event.printOut
             "Skipping all requirements, packages, etc due to without-pip specified"] := by
  constructor
  · intro hex hok
    simp only [install_extras, andThen, ensure_pip, install, subprocessCalls, hguard, hex, hok]
    simp [hguard, hex, hok]
    split <;> simp [subprocessCalls]
  · simp [install_extras, hguard]

/-- Witness for C6 at a concrete input. -/
theorem C6_orchestration_witness :
    subprocessCalls (install_extras ctxOk [] "/R" "3.9" none false false [] [] []).events
      = [(["/R/Versions/3.9/bin/python3.9", "-s", "-m", "ensurepip"], none),
         (["/R/Versions/3.9/bin/python3.9", "-s", "-m", "pip", "install", "wheel"], none)]
    ∧ (install_extras ctxOk [] "/R" "3.9" none false true [] [] []).events
        = [Event.printOut "",
           Event.printOut
             "Skipping all requirements, packages, etc due to without-pip specified"] := by
  have h := C6_orchestration ctxOk [] "/R" "3.9" (by decide)
  exact ⟨(h.1 (by decide) (by decide)).trans (by decide), h.2⟩

/-- C3 (refuted by the code): the claim says the `CPPFLAGS` override affects
only the one subprocess and the parent environment is unchanged afterwards;
the code aliases `os.environ` into `pip_env` and mutates it in place, so
after a manifest install that started with no `CPPFLAGS` binding the parent
environment carries one. -/
theorem C3_cppflags_leak :
    envGet ([] : Env) "CPPFLAGS" = none
    ∧ (install_requirements ctxOk [] "req.txt" "/R" "3.9" [] [] []).environ
        = [("CPPFLAGS", "-I/R/Versions/3.9/include/python3.9")]
    ∧ envGet (install_requirements ctxOk [] "req.txt" "/R" "3.9" [] [] []).environ "CPPFLAGS"
        = some "-I/R/Versions/3.9/include/python3.9" := by
  refine ⟨rfl, ?_, ?_⟩ <;> decide

/-- `joinTwo` inserts a separator when the accumulated path is nonempty and
slash-free at its end and the component does not start with a slash. -/
theorem joinTwo_general (a b : String) (ha : a ≠ "") (hae : strEndsWith a "/" = false)
    (hbs : strStartsWith b "/" = false) : joinTwo a b = a ++ "/" ++ b := by
  unfold joinTwo
  rw [if_neg (by simp [hbs]), if_neg (by simp [ha, hae])]

/-- C9 counterexample: at root `R` (a relative root) and version `3.9` the
resolve-executable-path computation yields `R/Versions/3.9/bin/python3.9`,
which is not an absolute path, so the computation does not yield an absolute
path for every root and version. -/
theorem C9_relative_root_counterexample :
    osPathJoin "R" ["Versions", "3.9", "bin/python" ++ "3.9"]
      = "R/Versions/3.9/bin/python3.9"
    ∧ posixIsAbs "R/Versions/3.9/bin/python3.9" = false := by
  refine ⟨?_, ?_⟩ <;> decide

/-- C9 (amended): for a nonempty root not ending in a slash and a nonempty
version neither starting nor ending in a slash, the resolve-executable-path
computation yields `<root>/Versions/<version>/bin/python<version>`, which is
absolute exactly when the root is; every operation recomputes this same path
from the same template, as witnessed by the head of each launched vector. -/
theorem C9_resolve_executable_path (c : Ctx) (env : Env) (fp v pkg rf : String)
    (hfp : fp ≠ "") (hfpe : strEndsWith fp "/" = false)
    (hv : v ≠ "") (hvs : strStartsWith v "/" = false) (hve : strEndsWith v "/" = false) :
    osPathJoin fp ["Versions", v, "bin/python" ++ v]
      = fp ++ "/Versions/" ++ v ++ "/bin/python" ++ v
    ∧ posixIsAbs (fp ++ "/Versions/" ++ v ++ "/bin/python" ++ v) = posixIsAbs fp
    ∧ (c.pathExists (fp ++ "/Versions/" ++ v ++ "/bin/python" ++ v) = true →
        (subprocessCalls (ensure_pip c env fp v).events).map (fun pr => pr.1.head?)
          = [some (fp ++ "/Versions/" ++ v ++ "/bin/python" ++ v)]
        ∧ (subprocessCalls (install c env pkg fp v).events).map (fun pr => pr.1.head?)
          = [some (fp ++ "/Versions/" ++ v ++ "/bin/python" ++ v)]
        ∧ (subprocessCalls (upgrade_pip_install c env fp v).events).map (fun pr => pr.1.head?)
          = [some (fp ++ "/Versions/" ++ v ++ "/bin/python" ++ v)]
        ∧ (subprocessCalls (install_requirements c env rf fp v [] [] []).events).map
            (fun pr => pr.1.head?)
          = [some (fp ++ "/Versions/" ++ v ++ "/bin/python" ++ v)]) := by
  have h1 : joinTwo fp "Versions" = fp ++ "/Versions" := by
    rw [joinTwo_general fp "Versions" hfp hfpe (by decide)]
    rw [String.append_assoc, show ("/" ++ "Versions" : String) = "/Versions" from rfl]
  have hne1 : fp ++ "/Versions" ≠ "" := by
    refine str_ne_empty _ ?_
    rw [String.data_append]
    simp
  have hnee1 : strEndsWith (fp ++ "/Versions") "/" = false := by
    rw [strEndsWith_slash_append fp "/Versions" (by decide)]
    decide
  have h2 : joinTwo (fp ++ "/Versions") v = fp ++ "/Versions/" ++ v := by
    rw [joinTwo_general _ v hne1 hnee1 hvs]
    rw [String.append_assoc fp]
    have e1 : ("/Versions" ++ "/" : String) = "/Versions/" := rfl
    rw [e1]
  have hne2 : fp ++ "/Versions/" ++ v ≠ "" := by
    refine str_ne_empty _ ?_
    rw [String.data_append, String.data_append]
    simp
  have hnee2 : strEndsWith (fp ++ "/Versions/" ++ v) "/" = false := by
    rw [strEndsWith_slash_append (fp ++ "/Versions/") v hv]
    exact hve
  have hbs3 : strStartsWith ("bin/python" ++ v) "/" = false :=
    strStartsWith_append_ne "bin/python" v "/" 0 '/' 'b' rfl rfl (by decide)
  have h3 : joinTwo (fp ++ "/Versions/" ++ v) ("bin/python" ++ v)
      = fp ++ "/Versions/" ++ v ++ "/bin/python" ++ v := by
    rw [joinTwo_general _ _ hne2 hnee2 hbs3]
    have e2 : ∀ w : String, "/" ++ ("bin/python" ++ w) = "/bin/python" ++ w := by
      intro w
      rw [← String.append_assoc, show ("/" ++ "bin/python" : String) = "/bin/python" from rfl]
    simp only [String.append_assoc, e2]
  have hjoin : osPathJoin fp ["Versions", v, "bin/python" ++ v]
      = fp ++ "/Versions/" ++ v ++ "/bin/python" ++ v := by
    show joinTwo (joinTwo (joinTwo fp "Versions") v) ("bin/python" ++ v) = _
    rw [h1, h2, h3]
  refine ⟨hjoin, ?_, ?_⟩
  · unfold posixIsAbs
    rw [String.append_assoc, String.append_assoc, String.append_assoc]
    exact strStartsWith_slash_append fp _ hfp
  · intro hex
    have hex' : c.pathExists (osPathJoin fp ["Versions", v, "bin/python" ++ v]) = true := by
      rw [hjoin]
      exact hex
    refine ⟨?_, ?_, ?_, ?_⟩ <;>
      simp [ensure_pip, install, upgrade_pip_install, install_requirements,
        subprocessCalls, hex, hex', hjoin]

/-- Witness for C9 (amended) at a concrete input. -/
theorem C9_resolve_executable_path_witness :
    osPathJoin "/R" ["Versions", "3.9", "bin/python" ++ "3.9"]
      = "/R" ++ "/Versions/" ++ "3.9" ++ "/bin/python" ++ "3.9"
    ∧ posixIsAbs ("/R" ++ "/Versions/" ++ "3.9" ++ "/bin/python" ++ "3.9")
      = posixIsAbs "/R" := by
  have h := C9_resolve_executable_path ctxOk [] "/R" "3.9" "wheel" "req.txt"
    (by decide) (by decide) (by decide) (by decide) (by decide)
  exact ⟨h.1, h.2.1⟩

end RelPy
